import Mathlib

/-!
Shallow embedding of the virus-simulation engine (virSim.py).

Randomness is modelled by an injected draw function `draws : ℕ → ℚ` together
with an index: each call to the random source reads `draws i` and advances the
index to `i + 1`.  Every operation returns the next unused index, so "this
branch consumes no random draw" is expressed as the index coming back
unchanged and the result not depending on `draws`.

Python's `KeyError` (dict access with a missing key) is modelled by `Option`:
`none` is a raised `KeyError`, propagated by the caller.  The `NoChildException`
used by `reproduce` for the ordinary "no offspring" outcome is modelled by the
inner `Option` of the result (it is caught by `update`, never propagated).

Python dicts are modelled as association lists (`List (String × Bool)`);
lists of virus objects as Lean lists.  The in-place `list.remove` during the
clearance pass removes the object itself (identity equality on distinct
instances), which on a copied list amounts to the order-preserving filter
embedded below.
-/

namespace VirSim

/-- Embeds `SimpleVirus`: `maxBirthProb` and `clearProb` as stored by
`SimpleVirus.__init__`. -/
structure SimpleVirus where
  maxBirthProb : ℚ
  clearProb : ℚ
deriving DecidableEq

/-- Embeds `SimpleVirus.__init__`: the parameters are saved as attributes,
with no validation. -/
def SimpleVirus.init (maxBirthProb clearProb : ℚ) : SimpleVirus :=
  ⟨maxBirthProb, clearProb⟩

/-- Embeds `SimpleVirus.doesClear`: draw one random float; return `true`
iff it is `≤ clearProb`. -/
def SimpleVirus.doesClear (v : SimpleVirus) (draws : ℕ → ℚ) (i : ℕ) : Bool × ℕ :=
  (decide (draws i ≤ v.clearProb), i + 1)

/-- Embeds `SimpleVirus.reproduce`: probability is `maxBirthProb * (1 - popDensity)`;
draw one random float; if `≤ probability` return an offspring with the same
parameters, else `NoChildException` (here `none`). -/
def SimpleVirus.reproduce (v : SimpleVirus) (popDensity : ℚ) (draws : ℕ → ℚ) (i : ℕ) :
    Option SimpleVirus × ℕ :=
  let probability := v.maxBirthProb * (1 - popDensity)
  if draws i ≤ probability then (some ⟨v.maxBirthProb, v.clearProb⟩, i + 1)
  else (none, i + 1)

/-- Embeds `SimplePatient`: the virus list and `maxPop` as stored by
`SimplePatient.__init__`. -/
structure SimplePatient where
  viruses : List SimpleVirus
  maxPop : ℤ
deriving DecidableEq

/-- Embeds `SimplePatient.__init__`: parameters saved as attributes, no
validation. -/
def SimplePatient.init (viruses : List SimpleVirus) (maxPop : ℤ) : SimplePatient :=
  ⟨viruses, maxPop⟩

/-- Embeds `SimplePatient.getTotalPop`: `len(self.viruses)`. -/
def SimplePatient.getTotalPop (p : SimplePatient) : ℕ :=
  p.viruses.length

/-- Embeds the clearance loop of `SimplePatient.update`: iterate over the
virus list, call `doesClear` on each virus (one draw each), and drop the
viruses for which it returned `True`. -/
def simpleClearPass (draws : ℕ → ℚ) : List SimpleVirus → ℕ → List SimpleVirus × ℕ
  | [], i => ([], i)
  | v :: rest, i =>
    let c := v.doesClear draws i
    let result := simpleClearPass draws rest c.2
    if c.1 then result else (v :: result.1, result.2)

/-- Embeds the reproduction loop of `SimplePatient.update`: iterate over the
post-clearance snapshot, call `reproduce` on each virus, and collect the
offspring (the `NoChildException` branch just continues). -/
def simpleReproducePass (popDensity : ℚ) (draws : ℕ → ℚ) :
    List SimpleVirus → ℕ → List SimpleVirus × ℕ
  | [], i => ([], i)
  | v :: rest, i =>
    match v.reproduce popDensity draws i with
    | (some offspring, j) =>
      let result := simpleReproducePass popDensity draws rest j
      (offspring :: result.1, result.2)
    | (none, j) => simpleReproducePass popDensity draws rest j

/-- Embeds `SimplePatient.update`: clearance pass over `self.viruses`, then
`popDensity = len(virus_pop) / float(maxPop)`, then the reproduction pass over
the post-clearance snapshot `virus_pop` with offspring appended after it.
Returns the new patient state, `getTotalPop()` and the next draw index. -/
def SimplePatient.update (p : SimplePatient) (draws : ℕ → ℚ) (i : ℕ) :
    SimplePatient × ℕ × ℕ :=
  let vp := simpleClearPass draws p.viruses i
  let popDensity := (vp.1.length : ℚ) / (p.maxPop : ℚ)
  let rp := simpleReproducePass popDensity draws vp.1 vp.2
  (⟨vp.1 ++ rp.1, p.maxPop⟩, (vp.1 ++ rp.1).length, rp.2)

/-- Embeds `ResistantVirus`: adds the `resistances` dict (an association list
with the dict's insertion order) and `mutProb`. -/
structure ResistantVirus where
  maxBirthProb : ℚ
  clearProb : ℚ
  resistances : List (String × Bool)
  mutProb : ℚ
deriving DecidableEq

/-- Embeds `ResistantVirus.__init__`: parameters saved as attributes, no
validation. -/
def ResistantVirus.init (maxBirthProb clearProb : ℚ) (resistances : List (String × Bool))
    (mutProb : ℚ) : ResistantVirus :=
  ⟨maxBirthProb, clearProb, resistances, mutProb⟩

/-- Embeds Python dict lookup `self.resistances[drug]`: first binding of the
key, `none` for a raised `KeyError`. -/
def lookupDrug : List (String × Bool) → String → Option Bool
  | [], _ => none
  | (k, b) :: rest, drug => if k = drug then some b else lookupDrug rest drug

/-- Embeds `ResistantVirus.getResistance`: `if self.resistances[drug]` returns
`True` else `False`; a missing key raises `KeyError` (`none`). -/
def ResistantVirus.getResistance (v : ResistantVirus) (drug : String) : Option Bool :=
  match lookupDrug v.resistances drug with
  | some b => some (if b then true else false)
  | none => none

/-- Embeds `ResistantVirus.doesClear` (inherited from `SimpleVirus`). -/
def ResistantVirus.doesClear (v : ResistantVirus) (draws : ℕ → ℚ) (i : ℕ) : Bool × ℕ :=
  (decide (draws i ≤ v.clearProb), i + 1)

/-- Embeds the eligibility loop of `ResistantVirus.reproduce`:
`resistance = True; for drug in activeDrugs: if not self.getResistance(drug):
resistance = False`.  The final flag is the conjunction of all resistance
values; a missing key raises `KeyError` (`none`) at that iteration. -/
def resistanceLoop (v : ResistantVirus) : List String → Option Bool
  | [] => some true
  | drug :: rest =>
    match v.getResistance drug with
    | none => none
    | some b =>
      match resistanceLoop v rest with
      | none => none
      | some r => some (b && r)

/-- Embeds the body of the eligible branch of `ResistantVirus.reproduce`:
draw `randomFloat`; if `≤ maxBirthProb * (1 - popDensity)`, draw one single
`randomRes`; if that one draw is `≤ mutProb`, return an offspring whose whole
resistance dict is negated key-by-key, else an offspring with the parent's
dict unchanged; if the birth draw fails, `NoChildException` (`none`). -/
def ResistantVirus.birthBranch (v : ResistantVirus) (popDensity : ℚ) (draws : ℕ → ℚ)
    (i : ℕ) : Option ResistantVirus × ℕ :=
  let probability := v.maxBirthProb * (1 - popDensity)
  if draws i ≤ probability then
    if draws (i + 1) ≤ v.mutProb then
      (some ⟨v.maxBirthProb, v.clearProb, v.resistances.map (fun p => (p.1, !p.2)),
        v.mutProb⟩, i + 2)
    else
      (some ⟨v.maxBirthProb, v.clearProb, v.resistances, v.mutProb⟩, i + 2)
  else (none, i + 1)

/-- Embeds `ResistantVirus.reproduce`: run the eligibility loop (no draws);
if `resistance or len(activeDrugs) == 0`, run the birth branch, else
`NoChildException` (`some (none, i)`) with the draw index untouched.  The
outer `none` is a propagated `KeyError`. -/
def ResistantVirus.reproduce (v : ResistantVirus) (popDensity : ℚ)
    (activeDrugs : List String) (draws : ℕ → ℚ) (i : ℕ) :
    Option (Option ResistantVirus × ℕ) :=
  match resistanceLoop v activeDrugs with
  | none => none
  | some resistance =>
    if resistance || decide (activeDrugs.length = 0) then
      some (v.birthBranch popDensity draws i)
    else some (none, i)

/-- Embeds `Patient`: virus list, `maxPop`, and the `drugs` list. -/
structure Patient where
  viruses : List ResistantVirus
  maxPop : ℤ
  drugs : List String
deriving DecidableEq

/-- Embeds `Patient.__init__`: stores the virus list and `maxPop`, and
initializes `drugs` to the empty list. -/
def Patient.init (viruses : List ResistantVirus) (maxPop : ℤ) : Patient :=
  ⟨viruses, maxPop, []⟩

/-- Embeds `Patient.getTotalPop` (inherited): `len(self.viruses)`. -/
def Patient.getTotalPop (p : Patient) : ℕ :=
  p.viruses.length

/-- Embeds `Patient.addPrescription`: append `newDrug` to `self.drugs` only
when it is not already in the list. -/
def Patient.addPrescription (p : Patient) (newDrug : String) : Patient :=
  if newDrug ∈ p.drugs then p else { p with drugs := p.drugs ++ [newDrug] }

/-- Embeds `Patient.getPrescriptions`: returns `self.drugs`. -/
def Patient.getPrescriptions (p : Patient) : List String :=
  p.drugs

/-- Embeds the inner loop of `Patient.getResistPop`:
`resistance = False; for drug in drugResist: if virus.getResistance(drug):
resistance = True else: resistance = False`.  The accumulator is simply
overwritten by each iteration; a missing key raises `KeyError` (`none`). -/
def resistPopFlag (v : ResistantVirus) (acc : Bool) : List String → Option Bool
  | [] => some acc
  | drug :: rest =>
    match v.getResistance drug with
    | none => none
    | some b => resistPopFlag v b rest

/-- Embeds the outer loop of `Patient.getResistPop`: count the viruses whose
final `resistance` flag is `True`. -/
def resistPopCount (drugResist : List String) : List ResistantVirus → Option ℕ
  | [] => some 0
  | v :: rest =>
    match resistPopFlag v false drugResist with
    | none => none
    | some b =>
      match resistPopCount drugResist rest with
      | none => none
      | some n => some (if b then n + 1 else n)

/-- Embeds `Patient.getResistPop`: `len(resistPop)` after the two loops. -/
def Patient.getResistPop (p : Patient) (drugResist : List String) : Option ℕ :=
  resistPopCount drugResist p.viruses

/-- Embeds the clearance loop of `Patient.update` (same shape as the simple
variant, over `ResistantVirus`). -/
def clearPass (draws : ℕ → ℚ) : List ResistantVirus → ℕ → List ResistantVirus × ℕ
  | [], i => ([], i)
  | v :: rest, i =>
    let c := v.doesClear draws i
    let result := clearPass draws rest c.2
    if c.1 then result else (v :: result.1, result.2)

/-- Embeds the reproduction loop of `Patient.update`: iterate over the
post-clearance snapshot, call `reproduce(popDensity, self.drugs)` on each
virus, collect offspring; `NoChildException` continues, `KeyError`
propagates. -/
def reproducePass (popDensity : ℚ) (activeDrugs : List String) (draws : ℕ → ℚ) :
    List ResistantVirus → ℕ → Option (List ResistantVirus × ℕ)
  | [], i => some ([], i)
  | v :: rest, i =>
    match v.reproduce popDensity activeDrugs draws i with
    | none => none
    | some (some offspring, j) =>
      match reproducePass popDensity activeDrugs draws rest j with
      | none => none
      | some (offs, k) => some (offspring :: offs, k)
    | some (none, j) => reproducePass popDensity activeDrugs draws rest j

/-- Embeds `Patient.update`: clearance pass over `self.viruses`, then
`popDensity = len(virus_pop) / float(maxPop)`, then the reproduction pass over
the snapshot `virus_pop` with the offspring appended after it.  Returns the
new patient state, `getTotalPop()` and the next draw index; `none` is a
propagated `KeyError`. -/
def Patient.update (p : Patient) (draws : ℕ → ℚ) (i : ℕ) :
    Option (Patient × ℕ × ℕ) :=
  let vp := clearPass draws p.viruses i
  let popDensity := (vp.1.length : ℚ) / (p.maxPop : ℚ)
  match reproducePass popDensity p.drugs draws vp.1 vp.2 with
  | none => none
  | some (offs, k) => some (⟨vp.1 ++ offs, p.maxPop, p.drugs⟩, (vp.1 ++ offs).length, k)

/-!
Heap-level model for the aliasing behaviour of `Patient.__init__` and
`Patient.update`.  A `Heap` is a store of list cells indexed by allocation
order; a `HeapPatient` holds a reference into it (`self.viruses = viruses`
stores the caller's list object without copying).  `update` reads the cell,
builds the next population out of copies (`virus_pop = self.viruses[:]`,
`self.viruses = virus_pop[:]`), allocates the resulting fresh list and
rebinds the attribute to it — it never writes into an existing cell.
-/

abbrev Heap := List (List ResistantVirus)

/-- A drug-treated patient whose `viruses` attribute is a reference into the
heap. -/
structure HeapPatient where
  vref : ℕ
  maxPop : ℤ
  drugs : List String
deriving DecidableEq

/-- Embeds `Patient.__init__` at heap level: the reference passed by the
caller is stored as-is (aliasing, no copy), and `drugs` starts empty. -/
def HeapPatient.init (vref : ℕ) (maxPop : ℤ) : HeapPatient :=
  ⟨vref, maxPop, []⟩

/-- Embeds `Patient.getTotalPop` at heap level. -/
def HeapPatient.getTotalPop (h : Heap) (p : HeapPatient) : ℕ :=
  (h.getD p.vref []).length

/-- Embeds `Patient.update` at heap level: read the referenced cell, run the
two passes on local copies, allocate the new population as a fresh cell at
the end of the heap, and rebind `self.viruses` to it.  No existing cell is
written. -/
def HeapPatient.update (h : Heap) (p : HeapPatient) (draws : ℕ → ℚ) (i : ℕ) :
    Option (Heap × HeapPatient × ℕ × ℕ) :=
  let vs := h.getD p.vref []
  let vp := clearPass draws vs i
  let popDensity := (vp.1.length : ℚ) / (p.maxPop : ℚ)
  match reproducePass popDensity p.drugs draws vp.1 vp.2 with
  | none => none
  | some (offs, k) =>
    some (h ++ [vp.1 ++ offs], ⟨h.length, p.maxPop, p.drugs⟩, (vp.1 ++ offs).length, k)

/-! ### Helper lemmas -/

/-- If the virus is resistant to every drug in the list, the eligibility loop
returns `True`. -/
lemma resistanceLoop_all_true (v : ResistantVirus) :
    ∀ ds : List String, (∀ d ∈ ds, v.getResistance d = some true) →
      resistanceLoop v ds = some true
  | [], _ => rfl
  | drug :: rest, h => by
    have hd := h drug (List.mem_cons_self drug rest)
    have hr := resistanceLoop_all_true v rest (fun d hm => h d (List.mem_cons_of_mem _ hm))
    simp [resistanceLoop, hd, hr]

/-- If every drug in the list is a key of the resistance dict, the eligibility
loop raises no `KeyError`. -/
lemma resistanceLoop_exists_of_keys (v : ResistantVirus) :
    ∀ ds : List String, (∀ d ∈ ds, (v.getResistance d).isSome) →
      ∃ b, resistanceLoop v ds = some b
  | [], _ => ⟨true, rfl⟩
  | drug :: rest, h => by
    have hd := h drug (List.mem_cons_self drug rest)
    obtain ⟨b, hb⟩ := Option.isSome_iff_exists.mp hd
    obtain ⟨r, hr⟩ :=
      resistanceLoop_exists_of_keys v rest (fun d hm => h d (List.mem_cons_of_mem _ hm))
    exact ⟨b && r, by simp [resistanceLoop, hb, hr]⟩

/-- If every drug in the list is a key but at least one resistance value is
`False`, the eligibility loop returns `False`. -/
lemma resistanceLoop_false_of_not_all (v : ResistantVirus) :
    ∀ ds : List String, (∀ d ∈ ds, (v.getResistance d).isSome) →
      (¬ ∀ d ∈ ds, v.getResistance d = some true) →
      resistanceLoop v ds = some false
  | [], _, hnot => absurd (by simp) hnot
  | drug :: rest, hkeys, hnot => by
    have hd := hkeys drug (List.mem_cons_self drug rest)
    obtain ⟨b, hb⟩ := Option.isSome_iff_exists.mp hd
    cases b with
    | false =>
      obtain ⟨r, hr⟩ :=
        resistanceLoop_exists_of_keys v rest (fun d hm => hkeys d (List.mem_cons_of_mem _ hm))
      simp [resistanceLoop, hb, hr]
    | true =>
      have hrest : ¬ ∀ d ∈ rest, v.getResistance d = some true := by
        intro hall
        exact hnot (by
          intro d hd'
          rcases List.mem_cons.mp hd' with h1 | h2
          · subst h1; exact hb
          · exact hall d h2)
      have hr := resistanceLoop_false_of_not_all v rest
        (fun d hm => hkeys d (List.mem_cons_of_mem _ hm)) hrest
      simp [resistanceLoop, hb, hr]

/-- A missing key anywhere in the drug list makes the eligibility loop raise
`KeyError`. -/
lemma resistanceLoop_none_of_missing (v : ResistantVirus) (drug : String)
    (hmiss : v.getResistance drug = none) :
    ∀ ds : List String, drug ∈ ds → resistanceLoop v ds = none
  | d :: rest, hmem => by
    rcases List.mem_cons.mp hmem with h1 | h2
    · subst h1; simp [resistanceLoop, hmiss]
    · cases hv : v.getResistance d with
      | none => simp [resistanceLoop, hv]
      | some b =>
        have hr := resistanceLoop_none_of_missing v drug hmiss rest h2
        simp [resistanceLoop, hv, hr]

/-- A missing key anywhere in the drug list makes the `getResistPop` inner
loop raise `KeyError`, whatever the accumulator. -/
lemma resistPopFlag_none_of_missing (v : ResistantVirus) (drug : String)
    (hmiss : v.getResistance drug = none) :
    ∀ ds : List String, drug ∈ ds → ∀ acc, resistPopFlag v acc ds = none
  | d :: rest, hmem, acc => by
    rcases List.mem_cons.mp hmem with h1 | h2
    · subst h1; simp [resistPopFlag, hmiss]
    · cases hv : v.getResistance d with
      | none => simp [resistPopFlag, hv]
      | some b =>
        have hr := resistPopFlag_none_of_missing v drug hmiss rest h2 b
        simp [resistPopFlag, hv, hr]

/-- If some virus of the population lacks the key `drug` and `drug` is in the
query list, the `getResistPop` count raises `KeyError`. -/
lemma resistPopCount_none_of_missing (drug : String) (drugResist : List String)
    (hmem : drug ∈ drugResist) :
    ∀ (vs : List ResistantVirus) (v : ResistantVirus), v ∈ vs →
      v.getResistance drug = none → resistPopCount drugResist vs = none
  | v0 :: rest, v, hv, hres => by
    rcases List.mem_cons.mp hv with h1 | h2
    · subst h1
      have hf := resistPopFlag_none_of_missing v drug hres drugResist hmem false
      simp [resistPopCount, hf]
    · cases hf : resistPopFlag v0 false drugResist with
      | none => simp [resistPopCount, hf]
      | some b =>
        have hr := resistPopCount_none_of_missing drug drugResist hmem rest v h2 hres
        simp [resistPopCount, hf, hr]

/-- On an empty drug list the `getResistPop` count is `0`: each virus keeps
the initial `resistance = False` flag. -/
lemma resistPopCount_nil : ∀ vs : List ResistantVirus, resistPopCount [] vs = some 0
  | [] => rfl
  | _ :: rest => by simp [resistPopCount, resistPopFlag, resistPopCount_nil rest]

/-- If every clearance draw is above the corresponding virus's `clearProb`,
the clearance pass keeps the whole list and consumes one draw per virus. -/
lemma clearPass_all_survive (draws : ℕ → ℚ) :
    ∀ (vs : List ResistantVirus) (i : ℕ),
      (∀ m (hm : m < vs.length), ¬ draws (i + m) ≤ (vs.get ⟨m, hm⟩).clearProb) →
      clearPass draws vs i = (vs, i + vs.length)
  | [], i, _ => by simp [clearPass]
  | v :: rest, i, h => by
    have h0 : ¬ draws i ≤ v.clearProb := by
      have := h 0 (by simp)
      simpa using this
    have hr := clearPass_all_survive draws rest (i + 1) (by
      intro m hm
      have := h (m + 1) (by simpa using Nat.succ_lt_succ hm)
      have harith : i + 1 + m = i + (m + 1) := by omega
      rw [harith]
      simpa using this)
    simp only [clearPass, ResistantVirus.doesClear, hr]
    simp [h0]
    omega

/-- If every virus is eligible and every birth draw succeeds, the reproduction
pass produces exactly one offspring per virus and consumes two draws per
virus (one birth draw, one mutation draw). -/
lemma reproducePass_all_born (popDensity : ℚ) (activeDrugs : List String) (draws : ℕ → ℚ) :
    ∀ (vs : List ResistantVirus) (i : ℕ),
      (∀ v ∈ vs, resistanceLoop v activeDrugs = some true) →
      (∀ m (hm : m < vs.length),
        draws (i + 2 * m) ≤ (vs.get ⟨m, hm⟩).maxBirthProb * (1 - popDensity)) →
      ∃ offs, reproducePass popDensity activeDrugs draws vs i = some (offs, i + 2 * vs.length) ∧
        offs.length = vs.length
  | [], i, _, _ => ⟨[], by simp [reproducePass]⟩
  | v :: rest, i, helig, hbirth => by
    have he : resistanceLoop v activeDrugs = some true :=
      helig v (List.mem_cons_self v rest)
    have hb : draws i ≤ v.maxBirthProb * (1 - popDensity) := by
      have := hbirth 0 (by simp)
      simpa using this
    obtain ⟨offs, hoffs, hlen⟩ := reproducePass_all_born popDensity activeDrugs draws rest
      (i + 2)
      (fun w hw => helig w (List.mem_cons_of_mem _ hw))
      (by
        intro m hm
        have := hbirth (m + 1) (by simpa using Nat.succ_lt_succ hm)
        have harith : i + 2 + 2 * m = i + 2 * (m + 1) := by omega
        rw [harith]
        simpa using this)
    by_cases hmut : draws (i + 1) ≤ v.mutProb
    · refine ⟨⟨v.maxBirthProb, v.clearProb, v.resistances.map (fun p => (p.1, !p.2)),
        v.mutProb⟩ :: offs, ?_, by simp [hlen]⟩
      simp only [reproducePass, ResistantVirus.reproduce, he, ResistantVirus.birthBranch]
      simp only [if_pos hb, if_pos hmut]
      simp [hoffs]
      omega
    · refine ⟨⟨v.maxBirthProb, v.clearProb, v.resistances, v.mutProb⟩ :: offs, ?_,
        by simp [hlen]⟩
      simp only [reproducePass, ResistantVirus.reproduce, he, ResistantVirus.birthBranch]
      simp only [if_pos hb, if_neg hmut]
      simp [hoffs]
      omega

/-- Simple-virus analogue of `clearPass_all_survive`. -/
lemma simpleClearPass_all_survive (draws : ℕ → ℚ) :
    ∀ (vs : List SimpleVirus) (i : ℕ),
      (∀ m (hm : m < vs.length), ¬ draws (i + m) ≤ (vs.get ⟨m, hm⟩).clearProb) →
      simpleClearPass draws vs i = (vs, i + vs.length)
  | [], i, _ => by simp [simpleClearPass]
  | v :: rest, i, h => by
    have h0 : ¬ draws i ≤ v.clearProb := by
      have := h 0 (by simp)
      simpa using this
    have hr := simpleClearPass_all_survive draws rest (i + 1) (by
      intro m hm
      have := h (m + 1) (by simpa using Nat.succ_lt_succ hm)
      have harith : i + 1 + m = i + (m + 1) := by omega
      rw [harith]
      simpa using this)
    simp only [simpleClearPass, SimpleVirus.doesClear, hr]
    simp [h0]
    omega

/-- Simple-virus analogue of `reproducePass_all_born`: one draw and one
offspring per virus. -/
lemma simpleReproducePass_all_born (popDensity : ℚ) (draws : ℕ → ℚ) :
    ∀ (vs : List SimpleVirus) (i : ℕ),
      (∀ m (hm : m < vs.length),
        draws (i + m) ≤ (vs.get ⟨m, hm⟩).maxBirthProb * (1 - popDensity)) →
      ∃ offs, simpleReproducePass popDensity draws vs i = (offs, i + vs.length) ∧
        offs.length = vs.length
  | [], i, _ => ⟨[], by simp [simpleReproducePass]⟩
  | v :: rest, i, hbirth => by
    have hb : draws i ≤ v.maxBirthProb * (1 - popDensity) := by
      have := hbirth 0 (by simp)
      simpa using this
    obtain ⟨offs, hoffs, hlen⟩ := simpleReproducePass_all_born popDensity draws rest (i + 1)
      (by
        intro m hm
        have := hbirth (m + 1) (by simpa using Nat.succ_lt_succ hm)
        have harith : i + 1 + m = i + (m + 1) := by omega
        rw [harith]
        simpa using this)
    refine ⟨⟨v.maxBirthProb, v.clearProb⟩ :: offs, ?_, by simp [hlen]⟩
    simp only [simpleReproducePass, SimpleVirus.reproduce]
    simp only [if_pos hb]
    simp [hoffs]
    omega

/-! ### Claim theorems -/

/-- C1: refuted as stated; what the code does instead.  After a successful
birth draw, `ResistantVirus.reproduce` draws ONE single random value for the
whole resistance profile: the offspring's dict is either the parent's dict
copied unchanged or its full key-by-key negation.  Traits are never decided
by separate per-trait draws, so two traits can never flip independently of
one another.  (This contradicts the method's own docstring, which promises an
independent `mutProb` decision for each trait.) -/
theorem claim_C1_single_mutation_draw (v : ResistantVirus) (popDensity : ℚ)
    (activeDrugs : List String) (draws : ℕ → ℚ) (i j : ℕ) (off : ResistantVirus)
    (hrep : v.reproduce popDensity activeDrugs draws i = some (some off, j)) :
    off.resistances = v.resistances ∨
      off.resistances = v.resistances.map (fun p => (p.1, !p.2)) := by
  unfold ResistantVirus.reproduce ResistantVirus.birthBranch at hrep
  cases hloop : resistanceLoop v activeDrugs with
  | none => rw [hloop] at hrep; exact absurd hrep (by simp)
  | some resistance =>
    rw [hloop] at hrep
    simp only at hrep
    split at hrep
    · split at hrep
      · split at hrep
        · simp only [Option.some.injEq, Prod.mk.injEq] at hrep
          right
          rw [← hrep.1]
        · simp only [Option.some.injEq, Prod.mk.injEq] at hrep
          left
          rw [← hrep.1]
      · exact absurd hrep (by simp)
    · exact absurd hrep (by simp)

/-- Witness for C1: a concrete successful reproduction (all draws `0`, so the
mutation draw is `≤ mutProb`), to which the theorem applies. -/
theorem claim_C1_witness :
    ResistantVirus.reproduce ⟨9/10, 1/20, [("guttagonol", true)], 1/200⟩ 0 []
      (fun _ => 0) 0 =
      some (some ⟨9/10, 1/20, [("guttagonol", false)], 1/200⟩, 2) ∧
    ((ResistantVirus.mk (9/10) (1/20) [("guttagonol", false)] (1/200)).resistances =
        (ResistantVirus.mk (9/10) (1/20) [("guttagonol", true)] (1/200)).resistances ∨
      (ResistantVirus.mk (9/10) (1/20) [("guttagonol", false)] (1/200)).resistances =
        (ResistantVirus.mk (9/10) (1/20) [("guttagonol", true)]
          (1/200)).resistances.map (fun p => (p.1, !p.2))) := by
  have h : ResistantVirus.reproduce ⟨9/10, 1/20, [("guttagonol", true)], 1/200⟩ 0 []
      (fun _ => 0) 0 =
      some (some ⟨9/10, 1/20, [("guttagonol", false)], 1/200⟩, 2) := by
    norm_num [ResistantVirus.reproduce, ResistantVirus.birthBranch, resistanceLoop]
  exact ⟨h, claim_C1_single_mutation_draw _ _ _ _ _ _ _ h⟩

/-- C2: the code disagrees with the claim.  In `Patient.getResistPop` the
per-virus flag is overwritten on every loop iteration, so only the LAST drug
of `drugResist` decides whether a virus is counted: a virus resistant to
`grimpex` but not to `guttagonol` is counted for
`getResistPop(['guttagonol', 'grimpex'])`, although it is not resistant to
every listed drug. -/
theorem claim_C2_last_drug_counted :
    Patient.getResistPop
        ⟨[⟨1/10, 1/20, [("guttagonol", false), ("grimpex", true)], 1/200⟩], 1000, []⟩
        ["guttagonol", "grimpex"] = some 1 ∧
      ResistantVirus.getResistance
        ⟨1/10, 1/20, [("guttagonol", false), ("grimpex", true)], 1/200⟩ "guttagonol" =
        some false := by
  constructor <;> decide

/-- C3 counterexample: a patient with one virus has `getResistPop([]) = 0`,
not the full population count `1` claimed by the spec. -/
theorem claim_C3_counterexample :
    Patient.getResistPop ⟨[⟨1/10, 1/20, [("guttagonol", true)], 1/200⟩], 1000, []⟩ []
        = some 0 ∧
      Patient.getTotalPop ⟨[⟨1/10, 1/20, [("guttagonol", true)], 1/200⟩], 1000, []⟩
        = 1 := by
  constructor <;> decide

/-- C3 amended: `getResistPop` with an empty drug list returns `0` for every
patient — the per-virus flag starts at `False` and the empty loop never
updates it, so no virus is ever counted. -/
theorem claim_C3_empty_drug_list_zero (p : Patient) :
    p.getResistPop [] = some 0 :=
  resistPopCount_nil p.viruses

/-- C6: both stochastic thresholds are inclusive at equality.  `doesClear`
returns `True` iff the draw is `≤ clearProb`; `reproduce` returns an
offspring iff the draw is `≤ maxBirthProb * (1 - popDensity)`, and exactly at
equality an offspring is produced. -/
theorem claim_C6_inclusive_thresholds (v : SimpleVirus) (popDensity : ℚ)
    (draws : ℕ → ℚ) (i : ℕ) (h0 : 0 ≤ v.clearProb) (h1 : v.clearProb ≤ 1) :
    ((v.doesClear draws i).1 = true ↔ draws i ≤ v.clearProb) ∧
    ((v.reproduce popDensity draws i).1.isSome = true ↔
      draws i ≤ v.maxBirthProb * (1 - popDensity)) ∧
    (draws i = v.maxBirthProb * (1 - popDensity) →
      (v.reproduce popDensity draws i).1 = some ⟨v.maxBirthProb, v.clearProb⟩) := by
  refine ⟨by simp [SimpleVirus.doesClear], ?_, ?_⟩
  · by_cases hb : draws i ≤ v.maxBirthProb * (1 - popDensity) <;>
      simp [SimpleVirus.reproduce, hb]
  · intro he
    simp [SimpleVirus.reproduce, le_of_eq he]

/-- Witness for C6 at `clearProb = 1/2 ∈ [0,1]`, draw `1/4`, density `1/2`. -/
theorem claim_C6_witness :
    ((SimpleVirus.doesClear ⟨1/2, 1/2⟩ (fun _ => 1/4) 0).1 = true ↔
      (1:ℚ)/4 ≤ 1/2) ∧
    ((SimpleVirus.reproduce ⟨1/2, 1/2⟩ (1/2) (fun _ => 1/4) 0).1.isSome = true ↔
      (1:ℚ)/4 ≤ 1/2 * (1 - 1/2)) ∧
    ((1:ℚ)/4 = 1/2 * (1 - 1/2) →
      (SimpleVirus.reproduce ⟨1/2, 1/2⟩ (1/2) (fun _ => 1/4) 0).1 = some ⟨1/2, 1/2⟩) :=
  claim_C6_inclusive_thresholds ⟨1/2, 1/2⟩ (1/2) (fun _ => 1/4) 0
    (by norm_num) (by norm_num)

/-- C7 counterexample: construction with a probability outside `[0,1]` or a
non-positive capacity is not rejected — the invalid values are accepted and
stored verbatim. -/
theorem claim_C7_counterexample :
    (SimpleVirus.init 2 (3/2)).maxBirthProb = 2 ∧
    (SimpleVirus.init 2 (3/2)).clearProb = 3/2 ∧
    ¬ ((2:ℚ) ≤ 1) ∧ ¬ ((3/2:ℚ) ≤ 1) ∧
    (SimplePatient.init [] (-5)).maxPop = -5 ∧ ¬ (0 < (-5:ℤ)) :=
  ⟨rfl, rfl, by norm_num, by norm_num, rfl, by norm_num⟩

/-- C7 amended: the constructors perform no validation at all — every
parameter is stored unchanged as an attribute (neither rejected, clamped,
nor defaulted). -/
theorem claim_C7_no_validation (b c : ℚ) (vs : List SimpleVirus) (m : ℤ)
    (rvs : List ResistantVirus) (res : List (String × Bool)) (mp : ℚ) (m2 : ℤ) :
    (SimpleVirus.init b c).maxBirthProb = b ∧ (SimpleVirus.init b c).clearProb = c ∧
    (SimplePatient.init vs m).viruses = vs ∧ (SimplePatient.init vs m).maxPop = m ∧
    (ResistantVirus.init b c res mp).resistances = res ∧
    (ResistantVirus.init b c res mp).mutProb = mp ∧
    (Patient.init rvs m2).viruses = rvs ∧ (Patient.init rvs m2).maxPop = m2 :=
  ⟨rfl, rfl, rfl, rfl, rfl, rfl, rfl, rfl⟩


/-- C4: the eligibility gate of `ResistantVirus.reproduce`.  If `activeDrugs`
is non-empty and the virus is not resistant to every drug in it (all names
being keys of its map), `reproduce` signals "no offspring" for every draw
sequence with the draw index untouched — deterministically and without
consuming a random draw.  If `activeDrugs` is empty or the virus is
resistant to every listed drug, `reproduce` runs the birth-draw branch,
whatever else the resistance map contains. -/
theorem claim_C4_eligibility_gate (v : ResistantVirus) (activeDrugs : List String)
    (popDensity : ℚ)
    (hkeys : ∀ d ∈ activeDrugs, (v.getResistance d).isSome) :
    (activeDrugs ≠ [] → (¬ ∀ d ∈ activeDrugs, v.getResistance d = some true) →
      ∀ draws i, v.reproduce popDensity activeDrugs draws i = some (none, i)) ∧
    ((activeDrugs = [] ∨ ∀ d ∈ activeDrugs, v.getResistance d = some true) →
      ∀ draws i, v.reproduce popDensity activeDrugs draws i =
        some (v.birthBranch popDensity draws i)) := by
  constructor
  · intro hne hnot draws i
    have hloop := resistanceLoop_false_of_not_all v activeDrugs hkeys hnot
    have hlen : ¬ activeDrugs.length = 0 := by
      cases activeDrugs with
      | nil => exact absurd rfl hne
      | cons d rest => simp
    simp [ResistantVirus.reproduce, hloop, hlen]
  · intro hor draws i
    rcases hor with he | hall
    · subst he
      simp [ResistantVirus.reproduce, resistanceLoop]
    · have hloop := resistanceLoop_all_true v activeDrugs hall
      simp [ResistantVirus.reproduce, hloop]

/-- Witness for C4: a virus resistant to `drugA` only, with
`activeDrugs = [drugA, drugB]` (both keys of its map), yields "no offspring"
with no draw consumed, at an arbitrary draw function and index. -/
theorem claim_C4_witness :
    ResistantVirus.reproduce
      ⟨9/10, 1/20, [("drugA", true), ("drugB", false)], 1/200⟩ 0
      ["drugA", "drugB"] (fun _ => 0) 5 = some (none, 5) :=
  (claim_C4_eligibility_gate ⟨9/10, 1/20, [("drugA", true), ("drugB", false)], 1/200⟩
      ["drugA", "drugB"] 0 (by decide)).1 (by decide) (by decide) (fun _ => 0) 5


/-- C5: for both patient kinds, one `update()` in which every clearance draw
yields survival and every reproduction draw yields an offspring turns a
population of `N` into exactly `2 * N`: only the post-clearance snapshot is
iterated for reproduction, so offspring appended during the step never
reproduce within the same step.  (For the drug-treated patient each listed
virus must be eligible under the patient's drugs; every successful
reproduction there consumes one birth draw and one mutation draw.) -/
theorem claim_C5_update_doubles :
    (∀ (p : SimplePatient) (draws : ℕ → ℚ) (i : ℕ),
      (∀ m (hm : m < p.viruses.length),
        ¬ draws (i + m) ≤ (p.viruses.get ⟨m, hm⟩).clearProb) →
      (∀ m (hm : m < p.viruses.length),
        draws (i + p.viruses.length + m) ≤
          (p.viruses.get ⟨m, hm⟩).maxBirthProb *
            (1 - (p.viruses.length : ℚ) / (p.maxPop : ℚ))) →
      (p.update draws i).2.1 = 2 * p.viruses.length) ∧
    (∀ (p : Patient) (draws : ℕ → ℚ) (i : ℕ),
      (∀ v ∈ p.viruses, resistanceLoop v p.drugs = some true) →
      (∀ m (hm : m < p.viruses.length),
        ¬ draws (i + m) ≤ (p.viruses.get ⟨m, hm⟩).clearProb) →
      (∀ m (hm : m < p.viruses.length),
        draws (i + p.viruses.length + 2 * m) ≤
          (p.viruses.get ⟨m, hm⟩).maxBirthProb *
            (1 - (p.viruses.length : ℚ) / (p.maxPop : ℚ))) →
      ∃ q k, p.update draws i = some (q, 2 * p.viruses.length, k) ∧
        q.viruses.length = 2 * p.viruses.length) := by
  constructor
  · intro p draws i hclear hbirth
    have hc := simpleClearPass_all_survive draws p.viruses i hclear
    obtain ⟨offs, hoffs, hlen⟩ := simpleReproducePass_all_born
      ((p.viruses.length : ℚ) / (p.maxPop : ℚ)) draws p.viruses
      (i + p.viruses.length) hbirth
    simp only [SimplePatient.update, hc, hoffs]
    simp [hlen]
    omega
  · intro p draws i helig hclear hbirth
    have hc := clearPass_all_survive draws p.viruses i hclear
    obtain ⟨offs, hoffs, hlen⟩ := reproducePass_all_born
      ((p.viruses.length : ℚ) / (p.maxPop : ℚ)) p.drugs draws p.viruses
      (i + p.viruses.length) helig hbirth
    refine ⟨⟨p.viruses ++ offs, p.maxPop, p.drugs⟩, i + p.viruses.length +
      2 * p.viruses.length, ?_, by simp [hlen]; omega⟩
    simp only [Patient.update, hc, hoffs]
    simp [hlen]
    omega


/-- Witness for C5: one basic virus and one resistant virus (no drugs), with
the clearance draw `1` (survives) and all later draws `0` (reproduce):
population `1` becomes `2` in one step for both patient kinds. -/
theorem claim_C5_witness :
    (SimplePatient.update ⟨[⟨9/10, 1/20⟩], 1000⟩
        (fun k => if k = 0 then 1 else 0) 0).2.1 = 2 ∧
    ∃ q k, Patient.update ⟨[⟨9/10, 1/20, [("guttagonol", true)], 1/200⟩], 1000, []⟩
        (fun k => if k = 0 then 1 else 0) 0 = some (q, 2, k) ∧
      q.viruses.length = 2 := by
  constructor
  · exact claim_C5_update_doubles.1 ⟨[⟨9/10, 1/20⟩], 1000⟩
      (fun k => if k = 0 then 1 else 0) 0
      (by
        intro m hm
        have hm0 : m = 0 := by simpa using hm
        subst hm0
        norm_num)
      (by
        intro m hm
        have hm0 : m = 0 := by simpa using hm
        subst hm0
        norm_num)
  · exact claim_C5_update_doubles.2
      ⟨[⟨9/10, 1/20, [("guttagonol", true)], 1/200⟩], 1000, []⟩
      (fun k => if k = 0 then 1 else 0) 0
      (fun v _ => rfl)
      (by
        intro m hm
        have hm0 : m = 0 := by simpa using hm
        subst hm0
        norm_num)
      (by
        intro m hm
        have hm0 : m = 0 := by simpa using hm
        subst hm0
        norm_num)


/-- C8: `addPrescription` is idempotent — a second call with an
already-administered drug leaves the drug list unchanged; a new drug is
appended at the end; and no operation of the interface removes a drug:
`addPrescription` only ever keeps or extends the list, and `update` leaves
it untouched. -/
theorem claim_C8_addPrescription_idempotent (p : Patient) (d e : String) :
    ((p.addPrescription d).addPrescription d).drugs = (p.addPrescription d).drugs ∧
    (d ∈ p.drugs → p.addPrescription d = p) ∧
    (d ∉ p.drugs → (p.addPrescription d).drugs = p.drugs ++ [d]) ∧
    (∀ x ∈ p.drugs, x ∈ (p.addPrescription e).drugs) ∧
    (∀ draws i q n k, p.update draws i = some (q, n, k) → q.drugs = p.drugs) := by
  refine ⟨?_, ?_, ?_, ?_, ?_⟩
  · by_cases hd : d ∈ p.drugs
    · simp [Patient.addPrescription, hd]
    · have hd2 : d ∈ (p.drugs ++ [d]) := by simp
      simp [Patient.addPrescription, hd, hd2]
  · intro hd
    simp [Patient.addPrescription, hd]
  · intro hd
    simp [Patient.addPrescription, hd]
  · intro x hx
    by_cases he : e ∈ p.drugs <;> simp [Patient.addPrescription, he, hx]
  · intro draws i q n k hupd
    unfold Patient.update at hupd
    simp only [] at hupd
    split at hupd
    · exact absurd hupd (by simp)
    · simp only [Option.some.injEq, Prod.mk.injEq] at hupd
      rw [← hupd.1]

/-- Witness for C8: adding a fresh drug to a drug-free patient appends it. -/
theorem claim_C8_witness :
    ((Patient.mk [] 1000 []).addPrescription "guttagonol").drugs =
      [] ++ ["guttagonol"] :=
  (claim_C8_addPrescription_idempotent ⟨[], 1000, []⟩ "guttagonol" "grimpex").2.2.1
    (by decide)

/-- C9: frame property of `Patient.update` over the heap of virus-list
objects.  Although `Patient.__init__` stores the caller's list without
copying, `update` only reads the referenced cell and rebinds the attribute to
a freshly allocated list, so an update on one patient changes no existing
cell: every other patient observes exactly the population it observed
before, and the list object passed to a constructor is never mutated. -/
theorem claim_C9_patient_isolation (h : Heap) (pX pY : HeapPatient) (draws : ℕ → ℚ)
    (i : ℕ) (h2 : Heap) (pX2 : HeapPatient) (n k : ℕ)
    (href : pY.vref < h.length)
    (hupd : HeapPatient.update h pX draws i = some (h2, pX2, n, k)) :
    HeapPatient.getTotalPop h2 pY = HeapPatient.getTotalPop h pY ∧
    h2.getD pY.vref [] = h.getD pY.vref [] ∧
    ∀ r, r < h.length → h2.getD r [] = h.getD r [] := by
  have hframe : ∀ r, r < h.length → h2.getD r [] = h.getD r [] := by
    intro r hr
    unfold HeapPatient.update at hupd
    simp only [] at hupd
    split at hupd
    · exact absurd hupd (by simp)
    · simp only [Option.some.injEq, Prod.mk.injEq] at hupd
      rw [← hupd.1]
      exact List.getD_append _ _ _ _ hr
  exact ⟨by unfold HeapPatient.getTotalPop; rw [hframe pY.vref href],
    hframe pY.vref href, hframe⟩

/-- Witness for C9: a one-cell heap shared by two patients; the update of the
first allocates a new cell and leaves cell `0` — the population observed by
the second patient — unchanged. -/
theorem claim_C9_witness :
    HeapPatient.getTotalPop
        [[ResistantVirus.mk (9/10) (1/20) [("guttagonol", true)] (1/200)],
         [ResistantVirus.mk (9/10) (1/20) [("guttagonol", true)] (1/200),
          ResistantVirus.mk (9/10) (1/20) [("guttagonol", false)] (1/200)]]
        ⟨0, 500, []⟩ =
      HeapPatient.getTotalPop
        [[ResistantVirus.mk (9/10) (1/20) [("guttagonol", true)] (1/200)]]
        ⟨0, 500, []⟩ ∧
    List.getD
        [[ResistantVirus.mk (9/10) (1/20) [("guttagonol", true)] (1/200)],
         [ResistantVirus.mk (9/10) (1/20) [("guttagonol", true)] (1/200),
          ResistantVirus.mk (9/10) (1/20) [("guttagonol", false)] (1/200)]] 0 [] =
      List.getD
        [[ResistantVirus.mk (9/10) (1/20) [("guttagonol", true)] (1/200)]] 0 [] ∧
    ∀ r, r < List.length
        [[ResistantVirus.mk (9/10) (1/20) [("guttagonol", true)] (1/200)]] →
      List.getD
        [[ResistantVirus.mk (9/10) (1/20) [("guttagonol", true)] (1/200)],
         [ResistantVirus.mk (9/10) (1/20) [("guttagonol", true)] (1/200),
          ResistantVirus.mk (9/10) (1/20) [("guttagonol", false)] (1/200)]] r [] =
      List.getD
        [[ResistantVirus.mk (9/10) (1/20) [("guttagonol", true)] (1/200)]] r [] :=
  claim_C9_patient_isolation
    [[⟨9/10, 1/20, [("guttagonol", true)], 1/200⟩]]
    ⟨0, 1000, []⟩ ⟨0, 500, []⟩ (fun j => if j = 0 then 1 else 0) 0
    [[⟨9/10, 1/20, [("guttagonol", true)], 1/200⟩],
     [⟨9/10, 1/20, [("guttagonol", true)], 1/200⟩,
      ⟨9/10, 1/20, [("guttagonol", false)], 1/200⟩]]
    ⟨1, 1000, []⟩ 2 3
    (by norm_num)
    (by
      norm_num [HeapPatient.update, clearPass, reproducePass,
        ResistantVirus.doesClear, ResistantVirus.reproduce,
        ResistantVirus.birthBranch, resistanceLoop])

/-- C10: a drug name that is not a key of a virus's resistance map makes
`getResistance` raise `KeyError` instead of returning a default; `reproduce`
with such a drug among `activeDrugs` propagates that fault for every draw
sequence and index — hence before any reproduction draw is consumed — and
`getResistPop` naming such a drug over a population containing the virus
propagates it as well. -/
theorem claim_C10_missing_key_faults (v : ResistantVirus) (drug : String)
    (hmiss : lookupDrug v.resistances drug = none) :
    v.getResistance drug = none ∧
    (∀ popDensity activeDrugs (draws : ℕ → ℚ) (i : ℕ), drug ∈ activeDrugs →
      v.reproduce popDensity activeDrugs draws i = none) ∧
    (∀ (p : Patient) (drugResist : List String), v ∈ p.viruses → drug ∈ drugResist →
      p.getResistPop drugResist = none) := by
  have hres : v.getResistance drug = none := by
    simp [ResistantVirus.getResistance, hmiss]
  refine ⟨hres, ?_, ?_⟩
  · intro popDensity activeDrugs draws i hmem
    have hloop := resistanceLoop_none_of_missing v drug hres activeDrugs hmem
    simp [ResistantVirus.reproduce, hloop]
  · intro p drugResist hv hmem
    exact resistPopCount_none_of_missing drug drugResist hmem p.viruses v hv hres

/-- Witness for C10: a virus tracking only `guttagonol`, queried with
`grimpex`, makes `getResistPop` raise `KeyError`. -/
theorem claim_C10_witness :
    Patient.getResistPop
      ⟨[⟨9/10, 1/20, [("guttagonol", true)], 1/200⟩], 1000, []⟩ ["grimpex"] = none :=
  (claim_C10_missing_key_faults ⟨9/10, 1/20, [("guttagonol", true)], 1/200⟩ "grimpex"
      (by decide)).2.2
    ⟨[⟨9/10, 1/20, [("guttagonol", true)], 1/200⟩], 1000, []⟩ ["grimpex"]
    (by simp) (by simp)

end VirSim
